import Mathlib

/-!
Verification of the receipt-extraction-and-normalization pipeline of the
everythingapp repository (src/pages/1_Beleg_Scanner.py and
src/pages/2_Dashboard.py) against its natural-language specification.

The Python data is JSON-like; we embed it as the tagged union `JVal`.
Python numbers are embedded as `jint`/`jfloat` (rationals stand in for
binary64 floats: none of the verified properties depend on rounding,
only on which type tag a value carries) and Python `bool` as `jbool`.
Python dicts become ordered association lists, matching insertion order,
and `dict.get` becomes `pyDictGet`.

External collaborators are parameters: `json.loads` is a parameter
`loads : List Char → Option JVal` (returning `none` models a raised
`json.JSONDecodeError`), and the string case of the builtin `float`
conversion is a parameter `fos : String → Option Rat` (returning `none`
models a raised `ValueError`).
-/

namespace EverythingApp

/-- Tagged union of the JSON-like values flowing through the pipeline
(section 9 of the spec: string | number | bool | null | ordered-map |
sequence). -/
inductive JVal where
  | jnull
  | jbool (b : Bool)
  | jint (n : Int)
  | jfloat (q : Rat)
  | jstr (s : String)
  | jarr (elems : List JVal)
  | jobj (fields : List (String × JVal))
deriving Inhabited

/-- Python `d.get(k, default)` on a dict embedded as an association list. -/
def pyDictGet (m : List (String × JVal)) (k : String) (d : JVal) : JVal :=
  (m.lookup k).getD d

/-- Python dict assignment `m[k] = v` for a key already present in `m`
(every use in the embedded code overwrites an existing key, so preserving
the association-list order is exactly Python's in-place update). -/
def dictSet (m : List (String × JVal)) (k : String) (v : JVal) : List (String × JVal) :=
  m.map (fun kv => if kv.1 = k then (k, v) else kv)

/-- Python truthiness of a JSON-like value. -/
def pyTruthy : JVal → Bool
  | JVal.jnull => false
  | JVal.jbool b => b
  | JVal.jint n => n != 0
  | JVal.jfloat q => q != 0
  | JVal.jstr s => s != ""
  | JVal.jarr [] => false
  | JVal.jarr (_ :: _) => true
  | JVal.jobj [] => false
  | JVal.jobj (_ :: _) => true

/-- Python `isinstance(x, (int, float))`. Note that Python `bool` is a
subtype of `int`, so booleans pass this check. -/
def pyIsNumber : JVal → Bool
  | JVal.jint _ => true
  | JVal.jfloat _ => true
  | JVal.jbool _ => true
  | _ => false

/-- Recognizer for the `null` tag. -/
def isNullV : JVal → Bool
  | JVal.jnull => true
  | _ => false

/-- Recognizer for the map tag, Python `isinstance(x, dict)`. -/
def isObjVal : JVal → Bool
  | JVal.jobj _ => true
  | _ => false

/-- EXPECTED_SCHEMA from 1_Beleg_Scanner.py lines 129-134: the canonical
Receipt field set with defaults, in source order. -/
def EXPECTED_SCHEMA : List (String × JVal) :=
  [("merchant_name", JVal.jstr ""), ("merchant_address", JVal.jstr ""),
   ("vat_id", JVal.jstr ""), ("transaction_date", JVal.jstr ""),
   ("transaction_time", JVal.jstr ""), ("currency", JVal.jstr ""),
   ("receipt_number", JVal.jstr ""), ("items", JVal.jarr []),
   ("subtotal", JVal.jnull), ("tax_details", JVal.jarr []),
   ("total_tax_amount", JVal.jnull), ("total_amount", JVal.jnull)]

/-- EXPECTED_ITEM_SCHEMA from lines 137-145: the canonical LineItem field
set with defaults. -/
def EXPECTED_ITEM_SCHEMA : List (String × JVal) :=
  [("description", JVal.jstr ""),
   ("category", JVal.jstr "Sonstiges / Unkategorisiert"),
   ("quantity", JVal.jint 1),
   ("unit", JVal.jstr ""),
   ("unit_price", JVal.jnull),
   ("total_price", JVal.jnull),
   ("vat_rate", JVal.jnull)]

/-- EXPECTED_TAX_DETAIL_SCHEMA from lines 148-150. -/
def EXPECTED_TAX_DETAIL_SCHEMA : List (String × JVal) :=
  [("vat_percent", JVal.jnull), ("net_amount", JVal.jnull),
   ("tax_amount", JVal.jnull), ("gross_amount", JVal.jnull)]

/-- EXPECTED_HEADERS from lines 153-160: the fixed 19-column order. -/
def EXPECTED_HEADERS : List String :=
  ["Timestamp Added", "Receipt Date", "Receipt Time", "Store Name",
   "Receipt Number", "Receipt Total Amount", "Currency",
   "Item Category",
   "Item Description", "Item Quantity", "Item Unit", "Item Unit Price",
   "Item Total Price", "Item VAT Rate", "Filename", "Receipt VAT ID",
   "Receipt Address", "Receipt Subtotal", "Receipt Total Tax Amount"]

/-- ALLOWED_CATEGORIES from lines 163-212: the Category Taxonomy, 45
labels in source order. -/
def ALLOWED_CATEGORIES : List String :=
  ["Lebensmittel: Milchprodukte & Eier",
   "Lebensmittel: Backwaren",
   "Lebensmittel: Fleisch & Wurst",
   "Lebensmittel: Fisch",
   "Lebensmittel: Obst (frisch)",
   "Lebensmittel: Gemüse (frisch)",
   "Lebensmittel: Tiefkühlkost (Gemüse, Obst, Fisch, Fleisch, Fertiggerichte)",
   "Lebensmittel: Konserven & Gläser",
   "Lebensmittel: Trockenwaren & Beilagen",
   "Lebensmittel: Öle, Fette & Gewürze",
   "Lebensmittel: Brotaufstriche (süß & herzhaft)",
   "Lebensmittel: Süßigkeiten & Snacks",
   "Lebensmittel: Babynahrung",
   "Getränke: Wasser",
   "Getränke: Säfte & Softdrinks",
   "Getränke: Kaffee, Tee & Kakao",
   "Getränke: Bier",
   "Getränke: Wein & Sekt",
   "Getränke: Spirituosen",
   "Getränke: Pfand",
   "Haushalt: Reinigungsmittel",
   "Haushalt: Papier- & Hygieneartikel",
   "Drogerie: Körperpflege",
   "Drogerie: Gesundheit & Apotheke",
   "Drogerie: Kosmetik",
   "Außer Haus: Restaurant / Imbiss",
   "Außer Haus: Café / Bäckerei",
   "Außer Haus: Lieferdienste",
   "Außer Haus: Kantine / Mensa",
   "Transport: Tanken / Kraftstoff",
   "Transport: ÖPNV / Fahrkarten",
   "Transport: Parken",
   "Freizeit: Bücher & Medien",
   "Freizeit: Kultur & Events",
   "Freizeit: Hobbybedarf",
   "Freizeit: Sport",
   "Kleidung & Schuhe",
   "Kinder: Spielzeug",
   "Kinder: Schulbedarf",
   "Haustiere: Futter",
   "Haustiere: Bedarf & Tierarzt",
   "Haus & Garten: Werkzeug & Material",
   "Haus & Garten: Pflanzen & Bedarf",
   "Geschenke",
   "Sonstiges / Unkategorisiert"]

/-- Python `x in ALLOWED_CATEGORIES` applied to the raw JSON value found
under the category key: a non-string value never equals a string list
member, so only an exact string member passes. -/
def valueIsAllowedCategory : JVal → Bool
  | JVal.jstr s => ALLOWED_CATEGORIES.contains s
  | _ => false

/-- Item coercion, lines 224-231: the dict comprehension over
EXPECTED_ITEM_SCHEMA followed by the allow-list check on `category`
(overwriting with the schema default when invalid). -/
def coerceItemFields (im : List (String × JVal)) : List (String × JVal) :=
  let p := EXPECTED_ITEM_SCHEMA.map (fun kd => (kd.1, pyDictGet im kd.1 kd.2))
  if valueIsAllowedCategory (pyDictGet p "category" JVal.jnull) then p
  else dictSet p "category" (pyDictGet EXPECTED_ITEM_SCHEMA "category" JVal.jnull)

/-- The loop over `output["items"]`, lines 222-232: dict elements are
coerced against the item schema, non-dict elements are dropped. -/
def coerceItems : List JVal → List JVal
  | [] => []
  | JVal.jobj im :: rest => JVal.jobj (coerceItemFields im) :: coerceItems rest
  | _ :: rest => coerceItems rest

/-- The loop over `output["tax_details"]`, lines 236-241. -/
def coerceTaxDetails : List JVal → List JVal
  | [] => []
  | JVal.jobj dm :: rest =>
      JVal.jobj (EXPECTED_TAX_DETAIL_SCHEMA.map (fun kd => (kd.1, pyDictGet dm kd.1 kd.2)))
        :: coerceTaxDetails rest
  | _ :: rest => coerceTaxDetails rest

/-- The builtin `float(x)` applied to a JSON-like value: numbers and
booleans convert, strings go through the parameterized string conversion
`fos`, everything else raises (`none`). -/
def pyFloatOf (fos : String → Option Rat) : JVal → Option Rat
  | JVal.jstr s => fos s
  | JVal.jint n => some n
  | JVal.jfloat q => some q
  | JVal.jbool b => some (if b then 1 else 0)
  | _ => none

/-- One iteration of the numeric clean-up loop, lines 244-247: a value
that is neither None nor already numeric is passed to `float`; on failure
it becomes None. -/
def coerceNumField (fos : String → Option Rat) (m : List (String × JVal)) (k : String) :
    List (String × JVal) :=
  match pyDictGet m k JVal.jnull with
  | JVal.jnull => m
  | v =>
    if pyIsNumber v then m
    else
      match pyFloatOf fos v with
      | some q => dictSet m k (JVal.jfloat q)
      | none => dictSet m k JVal.jnull

/-- The body of ensure_json_schema for a dict input, lines 219-248: build
the output by the comprehension over EXPECTED_SCHEMA, rebuild `items` and
`tax_details`, then clean the three receipt-level numeric fields. -/
def receiptFields (fos : String → Option Rat) (m : List (String × JVal)) :
    List (String × JVal) :=
  let output := EXPECTED_SCHEMA.map (fun kd => (kd.1, pyDictGet m kd.1 kd.2))
  let output :=
    match pyDictGet output "items" JVal.jnull with
    | JVal.jarr l => dictSet output "items" (JVal.jarr (coerceItems l))
    | _ => dictSet output "items" (JVal.jarr [])
  let output :=
    match pyDictGet output "tax_details" JVal.jnull with
    | JVal.jarr l => dictSet output "tax_details" (JVal.jarr (coerceTaxDetails l))
    | _ => dictSet output "tax_details" (JVal.jarr [])
  let output := coerceNumField fos output "subtotal"
  let output := coerceNumField fos output "total_tax_amount"
  coerceNumField fos output "total_amount"

/-- ensure_json_schema, lines 215-248: a non-dict input is returned
unchanged; a dict input is coerced to the canonical Receipt shape. -/
def ensure_json_schema (fos : String → Option Rat) (data : JVal) : JVal :=
  match data with
  | JVal.jobj m => JVal.jobj (receiptFields fos m)
  | other => other

/-- Keys of an embedded dict, in order. -/
def keysOf (m : List (String × JVal)) : List String := m.map Prod.fst

/-- The `items` sequence of a receipt value (empty for shapes coercion
never produces). -/
def itemsOf (v : JVal) : List JVal :=
  match v with
  | JVal.jobj m =>
    match m.lookup "items" with
    | some (JVal.jarr l) => l
    | _ => []
  | _ => []

/-- The `tax_details` sequence of a receipt value. -/
def taxDetailsOf (v : JVal) : List JVal :=
  match v with
  | JVal.jobj m =>
    match m.lookup "tax_details" with
    | some (JVal.jarr l) => l
    | _ => []
  | _ => []

/-- Field lookup on a receipt or item value. -/
def fieldOf (v : JVal) (k : String) : Option JVal :=
  match v with
  | JVal.jobj m => m.lookup k
  | _ => none

/-- Python `str.strip()` over the character list (both ends). -/
def pyStrip (s : List Char) : List Char :=
  ((s.dropWhile Char.isWhitespace).reverse.dropWhile Char.isWhitespace).reverse

/-- Python `str.find(c)`: index of the first occurrence, `none` for -1. -/
def pyFind (c : Char) : List Char → Option Nat
  | [] => none
  | a :: rest => if a == c then some 0 else (pyFind c rest).map (fun i => i + 1)

/-- First index satisfying a predicate (used only by the spec-side
recovery definition). -/
def firstIdxWhere (p : Char → Bool) : List Char → Option Nat
  | [] => none
  | a :: rest => if p a then some 0 else (firstIdxWhere p rest).map (fun i => i + 1)

/-- Index of the last occurrence of a character. -/
def lastIdxOf (c : Char) : List Char → Option Nat
  | [] => none
  | a :: rest =>
    match lastIdxOf c rest with
    | some j => some (j + 1)
    | none => if a == c then some 0 else none

/-- Python `str.rfind(c, start)`: the last occurrence of `c` in the
region from `start` to the end, as an absolute index; `none` for -1. -/
def pyRfind (c : Char) (start : Nat) (s : List Char) : Option Nat :=
  (lastIdxOf c (s.drop start)).map (fun j => start + j)

/-- The start-index computation of the JSON recovery block, lines
334-337: first `\x7b`, first `[`, minimum when both exist. -/
def jsonStartIndex? (t : List Char) : Option Nat :=
  match pyFind '{' t, pyFind '[' t with
  | some b, some k => some (min b k)
  | some b, none => some b
  | none, some k => some k
  | none, none => none

/-- The JSON recovery slice of analyze_receipt_with_gemini, lines
333-355: strip, locate the start bracket, pick the matching closer, take
its last occurrence at or after the start, and slice inclusively. -/
def extract_json (raw : List Char) : Except String (List Char) :=
  let t := pyStrip raw
  match jsonStartIndex? t with
  | none => Except.error "Kein JSON-Start gefunden"
  | some i =>
    let endChar := if t.getD i ' ' == '{' then '}' else ']'
    match pyRfind endChar i t with
    | none => Except.error "Kein JSON-Endzeichen gefunden"
    | some j => Except.ok ((t.drop i).take (j + 1 - i))

/-- Modelled from the spec, section 4.2 step 2: the start index is the
earliest occurrence of either opening bracket, found by one scan with a
disjunctive predicate.  This is the spec-side definition compared with
`extract_json` in the refinement theorem for C3. -/
def extract_json_spec (raw : List Char) : Except String (List Char) :=
  let t := pyStrip raw
  match firstIdxWhere (fun c => c == '{' || c == '[') t with
  | none => Except.error "Kein JSON-Start gefunden"
  | some i =>
    let closer := if t.getD i ' ' == '{' then '}' else ']'
    match pyRfind closer i t with
    | none => Except.error "Kein JSON-Endzeichen gefunden"
    | some j => Except.ok ((t.drop i).take (j + 1 - i))

/-- analyze_receipt_with_gemini, lines 251-368, at the granularity the
claims need.  The collaborator outcome is the input: `Except.error`
models any exception before the response text is available (image decode
failure, model-call error); `loads` models `json.loads` (`none` is a
parse failure).  Every failure path returns `none`, the per-image
failure value. -/
def analyze_receipt_with_gemini (loads : List Char → Option JVal)
    (fos : String → Option Rat) (response : Except String (List Char)) : Option JVal :=
  match response with
  | Except.error _ => none
  | Except.ok raw =>
    match extract_json raw with
    | Except.error _ => none
    | Except.ok js =>
      match loads js with
      | none => none
      | some parsed => some (ensure_json_schema fos parsed)

/-- Replacement of None cells by empty strings, line 426. -/
def nullToEmpty : JVal → JVal
  | JVal.jnull => JVal.jstr ""
  | v => v

/-- One appended row, lines 416-426: the receipt metadata merged with one
item's fields in the order of EXPECTED_HEADERS, then None replaced by the
empty string.  Coercion guarantees `data` and `im` are dicts. -/
def itemRow (ts fn : String) (data im : List (String × JVal)) : List JVal :=
  ([JVal.jstr ts,
    pyDictGet data "transaction_date" (JVal.jstr ""),
    pyDictGet data "transaction_time" (JVal.jstr ""),
    pyDictGet data "merchant_name" (JVal.jstr ""),
    pyDictGet data "receipt_number" (JVal.jstr ""),
    pyDictGet data "total_amount" JVal.jnull,
    pyDictGet data "currency" (JVal.jstr ""),
    pyDictGet im "category" (pyDictGet EXPECTED_ITEM_SCHEMA "category" JVal.jnull),
    pyDictGet im "description" (JVal.jstr ""),
    pyDictGet im "quantity" (JVal.jint 1),
    pyDictGet im "unit" (JVal.jstr ""),
    pyDictGet im "unit_price" JVal.jnull,
    pyDictGet im "total_price" JVal.jnull,
    pyDictGet im "vat_rate" JVal.jnull,
    JVal.jstr fn,
    pyDictGet data "vat_id" (JVal.jstr ""),
    pyDictGet data "merchant_address" (JVal.jstr ""),
    pyDictGet data "subtotal" JVal.jnull,
    pyDictGet data "total_tax_amount" JVal.jnull]).map nullToEmpty

/-- Row projection for one analysis result, lines 401-427: zero rows when
the items list is empty (the `continue`), otherwise one row per item.
Coercion guarantees the `items` value is a list of dicts; the remaining
match arms are unreachable in the program. -/
def rowsForResult (ts : String) (r : String × JVal) : List (List JVal) :=
  match r.2 with
  | JVal.jobj data =>
    match pyDictGet data "items" (JVal.jarr []) with
    | JVal.jarr items =>
      items.map (fun it =>
        match it with
        | JVal.jobj im => itemRow ts r.1 data im
        | _ => [])
    | _ => []
  | _ => []

/-- The combined `rows_to_append` batch, lines 399-427. -/
def buildAllRows (ts : String) : List (String × JVal) → List (List JVal)
  | [] => []
  | r :: rest => rowsForResult ts r ++ buildAllRows ts rest

/-- The spreadsheet store: an ordered list of rows. -/
structure Sheet where
  rows : List (List JVal)

/-- The fixed header as a sheet row. -/
def headerRow : List JVal := EXPECTED_HEADERS.map JVal.jstr

/-- Decoding a sheet row back to strings (gspread `row_values` returns
cell values as strings; a row of anything else never equals the header
list). -/
def decodeStrings : List JVal → Option (List String)
  | [] => some []
  | JVal.jstr s :: rest => (decodeStrings rest).map (fun t => s :: t)
  | _ => none

/-- The comparison `header_row == EXPECTED_HEADERS` of line 379. -/
def isExpectedHeader (r : List JVal) : Bool :=
  decodeStrings r == some EXPECTED_HEADERS

/-- The header check of save_to_google_sheet, lines 376-396: row 1 is
read (the empty list when the sheet is empty); when it is not the fixed
header, the header is inserted as row 1.  The returned number counts
write operations. -/
def ensure_header (s : Sheet) : Sheet × Nat :=
  if isExpectedHeader (s.rows.headD []) then (s, 0)
  else ({ rows := headerRow :: s.rows }, 1)

/-- save_to_google_sheet, lines 371-435: early return on an empty result
list, header check, row batch assembly, then one append of all rows (no
write when the batch is empty).  Returns the new sheet and the number of
rows written. -/
def save_to_google_sheet (ts : String) (results : List (String × JVal)) (s : Sheet) :
    Sheet × Nat :=
  match results with
  | [] => (s, 0)
  | _ :: _ =>
    let s1 := (ensure_header s).1
    match buildAllRows ts results with
    | [] => (s1, 0)
    | r :: rs => ({ rows := s1.rows ++ (r :: rs) }, (r :: rs).length)

/-- The per-batch report kept by the analyze-button handler, lines
460-478: the success and failure counters and `all_results_structured`. -/
structure BatchReport where
  succeeded : Nat
  failed : Nat
  results : List (String × JVal)

/-- The analysis loop of the button handler, lines 463-475: every image
is attempted in input order; a result that is truthy and a dict is a
success, anything else (including the `none` failure value) increments
the failure counter and processing continues. -/
def processImages (loads : List Char → Option JVal) (fos : String → Option Rat) :
    List (String × Except String (List Char)) → BatchReport
  | [] => { succeeded := 0, failed := 0, results := [] }
  | (fn, resp) :: rest =>
    let r := analyze_receipt_with_gemini loads fos resp
    let tail := processImages loads fos rest
    match r with
    | some v =>
      if pyTruthy v && isObjVal v then
        { succeeded := tail.succeeded + 1, failed := tail.failed,
          results := (fn, v) :: tail.results }
      else
        { succeeded := tail.succeeded, failed := tail.failed + 1, results := tail.results }
    | none => { succeeded := tail.succeeded, failed := tail.failed + 1, results := tail.results }

/-- The whole batch run, lines 460-485: analyze all images, then hand the
collected successes to save_to_google_sheet in one call (skipped when
there are none). -/
def runBatch (loads : List Char → Option JVal) (fos : String → Option Rat)
    (images : List (String × Except String (List Char))) (s : Sheet) (ts : String) :
    BatchReport × Sheet × Nat :=
  let rep := processImages loads fos images
  match rep.results with
  | [] => (rep, s, 0)
  | _ :: _ =>
    let sn := save_to_google_sheet ts rep.results s
    (rep, sn.1, sn.2)

/-- The credential sources visible to the two lookup paths: the
structured secret store (`st.secrets`) and the process environment
(`os.getenv`), each holding the API key and the service-account JSON
string when present. -/
structure CredEnv where
  secretsApiKey : Option String
  secretsSheetsCreds : Option String
  envApiKey : Option String
  envSheetsCreds : Option String

/-- Python truthiness of an optional string (`os.getenv` returns None or
a possibly empty string). -/
def pyTruthyOptStr : Option String → Bool
  | some s => s != ""
  | none => false

/-- The validation applied in the fallback paths, Scanner line 55 and
Dashboard lines 75 and 108: the parsed blob must be a dict containing
`client_email`. -/
def isValidCredsBlob : JVal → Bool
  | JVal.jobj m => (m.lookup "client_email").isSome
  | _ => false

/-- The except-branch of the Scanner's credential loading, lines 36-70:
the API key falls back to the environment when not already truthy, then
the sheets credentials are read from the environment, parsed, and
validated; any miss is a fatal stop (`Except.error`).  `api0` is the
value the try-block had assigned before raising. -/
def credsFallback (loads : String → Option JVal) (env : CredEnv) (api0 : Option String) :
    Except String (String × JVal) :=
  let apiResolved := if pyTruthyOptStr api0 then api0 else env.envApiKey
  match apiResolved with
  | none => Except.error "API key fehlt"
  | some api =>
    if api == "" then Except.error "API key fehlt"
    else
      match env.envSheetsCreds with
      | none => Except.error "Sheets Credentials fehlen"
      | some credsStr =>
        if credsStr == "" then Except.error "Sheets Credentials fehlen"
        else
          match loads credsStr with
          | none => Except.error "Sheets Credentials JSON ungueltig"
          | some info =>
            if isValidCredsBlob info then Except.ok (api, info)
            else Except.error "client_email fehlt"

/-- The Scanner's credential loading, lines 28-76: the try-block reads
both secrets and parses the credentials string; any KeyError or
JSONDecodeError enters the fallback.  A blob that parses in the secrets
path is accepted as-is, with no structural validation. -/
def load_credentials (loads : String → Option JVal) (env : CredEnv) :
    Except String (String × JVal) :=
  match env.secretsApiKey with
  | none => credsFallback loads env none
  | some api =>
    match env.secretsSheetsCreds with
    | none => credsFallback loads env (some api)
    | some credsStr =>
      match loads credsStr with
      | none => credsFallback loads env (some api)
      | some info => Except.ok (api, info)

/-- authenticate_gspread of 2_Dashboard.py, lines 57-148, at credential
granularity: the secrets path parses and validates (returning None on a
parse or validation failure, with no fallback), the KeyError case falls
back to the environment path which parses and validates the same way;
`some info` stands for a successfully authorized client. -/
def authenticate_gspread (loads : String → Option JVal) (env : CredEnv) : Option JVal :=
  match env.secretsSheetsCreds with
  | some credsStr =>
    match loads credsStr with
    | none => none
    | some info => if isValidCredsBlob info then some info else none
  | none =>
    match env.envSheetsCreds with
    | none => none
    | some credsStr =>
      if credsStr == "" then none
      else
        match loads credsStr with
        | none => none
        | some info => if isValidCredsBlob info then some info else none

/-- Whether a credential-loading outcome reached the processing stage. -/
def credsAccepted : Except String (String × JVal) → Bool
  | Except.ok _ => true
  | Except.error _ => false

/-- Null-or-number test on a field lookup result (a missing field fails
it). -/
def nullOrNumO : Option JVal → Bool
  | some v => isNullV v || pyIsNumber v
  | none => false

/-- The raw items list a dict input carries into coercion: the value of
`items` when it is a sequence, the empty sequence otherwise. -/
def rawItems (m : List (String × JVal)) : List JVal :=
  match (List.lookup "items" m).getD (JVal.jarr []) with
  | JVal.jarr l => l
  | _ => []

/-- The raw tax_details list a dict input carries into coercion. -/
def rawTaxDetails (m : List (String × JVal)) : List JVal :=
  match (List.lookup "tax_details" m).getD (JVal.jarr []) with
  | JVal.jarr l => l
  | _ => []

theorem dictSet_cons (a : String) (b : JVal) (rest : List (String × JVal)) (k : String)
    (v : JVal) :
    dictSet ((a, b) :: rest) k v = (if a = k then (k, v) else (a, b)) :: dictSet rest k v :=
  rfl

theorem lookup_cons_eq (a : String) (b : JVal) (rest : List (String × JVal)) :
    List.lookup a ((a, b) :: rest) = some b := by
  simp [List.lookup]

theorem lookup_cons_ne (k a : String) (b : JVal) (rest : List (String × JVal))
    (h : k ≠ a) : List.lookup k ((a, b) :: rest) = List.lookup k rest := by
  have h2 : (k == a) = false := beq_eq_false_iff_ne.mpr h
  simp [List.lookup, h2]

theorem lookup_dictSet_self (m : List (String × JVal)) (k : String) (v : JVal) :
    List.lookup k (dictSet m k v) = (List.lookup k m).map (fun _ => v) := by
  induction m with
  | nil => rfl
  | cons kv rest ih =>
    obtain ⟨a, b⟩ := kv
    rw [dictSet_cons]
    by_cases hak : a = k
    · subst hak
      rw [if_pos rfl, lookup_cons_eq, lookup_cons_eq]
      rfl
    · rw [if_neg hak, lookup_cons_ne _ _ _ _ (Ne.symm hak),
        lookup_cons_ne _ _ _ _ (Ne.symm hak), ih]

theorem lookup_dictSet_ne (m : List (String × JVal)) (k k' : String) (v : JVal)
    (hne : k ≠ k') : List.lookup k (dictSet m k' v) = List.lookup k m := by
  induction m with
  | nil => rfl
  | cons kv rest ih =>
    obtain ⟨a, b⟩ := kv
    rw [dictSet_cons]
    by_cases hak : a = k'
    · subst hak
      rw [if_pos rfl, lookup_cons_ne _ _ _ _ hne, lookup_cons_ne _ _ _ _ hne, ih]
    · rw [if_neg hak]
      by_cases hka : k = a
      · subst hka
        rw [lookup_cons_eq, lookup_cons_eq]
      · rw [lookup_cons_ne _ _ _ _ hka, lookup_cons_ne _ _ _ _ hka, ih]

theorem keys_dictSet (m : List (String × JVal)) (k : String) (v : JVal) :
    keysOf (dictSet m k v) = keysOf m := by
  induction m with
  | nil => rfl
  | cons kv rest ih =>
    obtain ⟨a, b⟩ := kv
    rw [dictSet_cons]
    by_cases hak : a = k
    · subst hak
      rw [if_pos rfl]
      simp only [keysOf, List.map_cons]
      rw [show (dictSet rest a v).map Prod.fst = keysOf (dictSet rest a v) from rfl, ih]
      rfl
    · rw [if_neg hak]
      simp only [keysOf, List.map_cons]
      rw [show (dictSet rest k v).map Prod.fst = keysOf (dictSet rest k v) from rfl, ih]
      rfl

theorem keys_coerceNumField (fos : String → Option Rat) (m : List (String × JVal))
    (k : String) : keysOf (coerceNumField fos m k) = keysOf m := by
  unfold coerceNumField
  split
  · rfl
  · split
    · rfl
    · split
      · exact keys_dictSet ..
      · exact keys_dictSet ..

theorem lookup_coerceNumField_ne (fos : String → Option Rat) (m : List (String × JVal))
    (k k' : String) (hne : k ≠ k') :
    List.lookup k (coerceNumField fos m k') = List.lookup k m := by
  unfold coerceNumField
  split
  · rfl
  · split
    · rfl
    · split
      · exact lookup_dictSet_ne _ _ _ _ hne
      · exact lookup_dictSet_ne _ _ _ _ hne

theorem lookup_coerceNumField_self (fos : String → Option Rat) (m : List (String × JVal))
    (k : String) (h : (List.lookup k m).isSome = true) :
    nullOrNumO (List.lookup k (coerceNumField fos m k)) = true := by
  obtain ⟨v, hv⟩ := Option.isSome_iff_exists.mp h
  unfold coerceNumField
  rw [show pyDictGet m k JVal.jnull = v by simp [pyDictGet, hv]]
  match v with
  | JVal.jnull => simp [hv, nullOrNumO, isNullV]
  | JVal.jbool b => simp [hv, nullOrNumO, pyIsNumber]
  | JVal.jint n => simp [hv, nullOrNumO, pyIsNumber]
  | JVal.jfloat q => simp [hv, nullOrNumO, pyIsNumber]
  | JVal.jstr s =>
    simp only [pyIsNumber]
    cases hfs : pyFloatOf fos (JVal.jstr s) with
    | some q => simp [hfs, lookup_dictSet_self, hv, nullOrNumO, pyIsNumber]
    | none => simp [hfs, lookup_dictSet_self, hv, nullOrNumO, isNullV]
  | JVal.jarr l =>
    simp only [pyIsNumber, pyFloatOf]
    simp [lookup_dictSet_self, hv, nullOrNumO, isNullV]
  | JVal.jobj mm =>
    simp only [pyIsNumber, pyFloatOf]
    simp [lookup_dictSet_self, hv, nullOrNumO, isNullV]

theorem lookup_map_schema (sch : List (String × JVal)) (f : String → JVal → JVal)
    (k : String) :
    List.lookup k (sch.map (fun kd => (kd.1, f kd.1 kd.2)))
      = (List.lookup k sch).map (fun d => f k d) := by
  induction sch with
  | nil => rfl
  | cons kd rest ih =>
    obtain ⟨a, d⟩ := kd
    by_cases hka : k = a
    · subst hka
      simp [List.lookup]
    · have h1 : (k == a) = false := by simp [hka]
      simp [List.lookup, h1, ih]

theorem keys_map_schema (sch : List (String × JVal)) (f : String → JVal → JVal) :
    keysOf (sch.map (fun kd => (kd.1, f kd.1 kd.2))) = keysOf sch := by
  simp [keysOf, List.map_map, Function.comp]

/-- The comprehension over EXPECTED_SCHEMA, named for the proofs. -/
def receiptBase (m : List (String × JVal)) : List (String × JVal) :=
  EXPECTED_SCHEMA.map (fun kd => (kd.1, pyDictGet m kd.1 kd.2))

theorem lookup_receiptBase (m : List (String × JVal)) (k : String) :
    List.lookup k (receiptBase m)
      = (List.lookup k EXPECTED_SCHEMA).map (fun d => pyDictGet m k d) :=
  lookup_map_schema EXPECTED_SCHEMA (fun k d => pyDictGet m k d) k

theorem receiptFields_eq (fos : String → Option Rat) (m : List (String × JVal)) :
    receiptFields fos m =
      coerceNumField fos (coerceNumField fos (coerceNumField fos
        (dictSet
          (dictSet (receiptBase m) "items" (JVal.jarr (coerceItems (rawItems m))))
          "tax_details" (JVal.jarr (coerceTaxDetails (rawTaxDetails m))))
        "subtotal") "total_tax_amount") "total_amount" := by
  have hitems : pyDictGet (receiptBase m) "items" JVal.jnull
      = (List.lookup "items" m).getD (JVal.jarr []) := by
    have h1 : List.lookup "items" EXPECTED_SCHEMA = some (JVal.jarr []) := rfl
    simp [pyDictGet, lookup_receiptBase, h1]
  unfold receiptFields
  rw [show EXPECTED_SCHEMA.map (fun kd => (kd.1, pyDictGet m kd.1 kd.2)) = receiptBase m
    from rfl]
  dsimp only
  rw [hitems]
  have htaxbase : ∀ x : JVal,
      pyDictGet (dictSet (receiptBase m) "items" x) "tax_details" JVal.jnull
        = (List.lookup "tax_details" m).getD (JVal.jarr []) := by
    intro x
    have h1 : List.lookup "tax_details" EXPECTED_SCHEMA = some (JVal.jarr []) := rfl
    have h2 : ("tax_details" : String) ≠ "items" := by decide
    simp [pyDictGet, lookup_dictSet_ne _ _ _ _ h2, lookup_receiptBase, h1]
  cases h : (List.lookup "items" m).getD (JVal.jarr []) with
  | jarr l =>
    rw [show rawItems m = l by rw [rawItems, h]]
    rw [htaxbase]
    cases h2 : (List.lookup "tax_details" m).getD (JVal.jarr []) with
    | jarr l2 => rw [show rawTaxDetails m = l2 by rw [rawTaxDetails, h2]]; try rfl
    | jnull => rw [show rawTaxDetails m = [] by rw [rawTaxDetails, h2]]; try rfl
    | jbool b => rw [show rawTaxDetails m = [] by rw [rawTaxDetails, h2]]; try rfl
    | jint n => rw [show rawTaxDetails m = [] by rw [rawTaxDetails, h2]]; try rfl
    | jfloat q => rw [show rawTaxDetails m = [] by rw [rawTaxDetails, h2]]; try rfl
    | jstr s => rw [show rawTaxDetails m = [] by rw [rawTaxDetails, h2]]; try rfl
    | jobj mm => rw [show rawTaxDetails m = [] by rw [rawTaxDetails, h2]]; try rfl
  | jnull =>
    rw [show rawItems m = [] by rw [rawItems, h]]
    rw [htaxbase]
    cases h2 : (List.lookup "tax_details" m).getD (JVal.jarr []) with
    | jarr l2 => rw [show rawTaxDetails m = l2 by rw [rawTaxDetails, h2]]; try rfl
    | jnull => rw [show rawTaxDetails m = [] by rw [rawTaxDetails, h2]]; try rfl
    | jbool b => rw [show rawTaxDetails m = [] by rw [rawTaxDetails, h2]]; try rfl
    | jint n => rw [show rawTaxDetails m = [] by rw [rawTaxDetails, h2]]; try rfl
    | jfloat q => rw [show rawTaxDetails m = [] by rw [rawTaxDetails, h2]]; try rfl
    | jstr s => rw [show rawTaxDetails m = [] by rw [rawTaxDetails, h2]]; try rfl
    | jobj mm => rw [show rawTaxDetails m = [] by rw [rawTaxDetails, h2]]; try rfl
  | jbool b =>
    rw [show rawItems m = [] by rw [rawItems, h]]
    rw [htaxbase]
    cases h2 : (List.lookup "tax_details" m).getD (JVal.jarr []) with
    | jarr l2 => rw [show rawTaxDetails m = l2 by rw [rawTaxDetails, h2]]; try rfl
    | jnull => rw [show rawTaxDetails m = [] by rw [rawTaxDetails, h2]]; try rfl
    | jbool b2 => rw [show rawTaxDetails m = [] by rw [rawTaxDetails, h2]]; try rfl
    | jint n => rw [show rawTaxDetails m = [] by rw [rawTaxDetails, h2]]; try rfl
    | jfloat q => rw [show rawTaxDetails m = [] by rw [rawTaxDetails, h2]]; try rfl
    | jstr s => rw [show rawTaxDetails m = [] by rw [rawTaxDetails, h2]]; try rfl
    | jobj mm => rw [show rawTaxDetails m = [] by rw [rawTaxDetails, h2]]; try rfl
  | jint n =>
    rw [show rawItems m = [] by rw [rawItems, h]]
    rw [htaxbase]
    cases h2 : (List.lookup "tax_details" m).getD (JVal.jarr []) with
    | jarr l2 => rw [show rawTaxDetails m = l2 by rw [rawTaxDetails, h2]]; try rfl
    | jnull => rw [show rawTaxDetails m = [] by rw [rawTaxDetails, h2]]; try rfl
    | jbool b => rw [show rawTaxDetails m = [] by rw [rawTaxDetails, h2]]; try rfl
    | jint n2 => rw [show rawTaxDetails m = [] by rw [rawTaxDetails, h2]]; try rfl
    | jfloat q => rw [show rawTaxDetails m = [] by rw [rawTaxDetails, h2]]; try rfl
    | jstr s => rw [show rawTaxDetails m = [] by rw [rawTaxDetails, h2]]; try rfl
    | jobj mm => rw [show rawTaxDetails m = [] by rw [rawTaxDetails, h2]]; try rfl
  | jfloat q =>
    rw [show rawItems m = [] by rw [rawItems, h]]
    rw [htaxbase]
    cases h2 : (List.lookup "tax_details" m).getD (JVal.jarr []) with
    | jarr l2 => rw [show rawTaxDetails m = l2 by rw [rawTaxDetails, h2]]; try rfl
    | jnull => rw [show rawTaxDetails m = [] by rw [rawTaxDetails, h2]]; try rfl
    | jbool b => rw [show rawTaxDetails m = [] by rw [rawTaxDetails, h2]]; try rfl
    | jint n => rw [show rawTaxDetails m = [] by rw [rawTaxDetails, h2]]; try rfl
    | jfloat q2 => rw [show rawTaxDetails m = [] by rw [rawTaxDetails, h2]]; try rfl
    | jstr s => rw [show rawTaxDetails m = [] by rw [rawTaxDetails, h2]]; try rfl
    | jobj mm => rw [show rawTaxDetails m = [] by rw [rawTaxDetails, h2]]; try rfl
  | jstr s =>
    rw [show rawItems m = [] by rw [rawItems, h]]
    rw [htaxbase]
    cases h2 : (List.lookup "tax_details" m).getD (JVal.jarr []) with
    | jarr l2 => rw [show rawTaxDetails m = l2 by rw [rawTaxDetails, h2]]; try rfl
    | jnull => rw [show rawTaxDetails m = [] by rw [rawTaxDetails, h2]]; try rfl
    | jbool b => rw [show rawTaxDetails m = [] by rw [rawTaxDetails, h2]]; try rfl
    | jint n => rw [show rawTaxDetails m = [] by rw [rawTaxDetails, h2]]; try rfl
    | jfloat q => rw [show rawTaxDetails m = [] by rw [rawTaxDetails, h2]]; try rfl
    | jstr s2 => rw [show rawTaxDetails m = [] by rw [rawTaxDetails, h2]]; try rfl
    | jobj mm => rw [show rawTaxDetails m = [] by rw [rawTaxDetails, h2]]; try rfl
  | jobj mm =>
    rw [show rawItems m = [] by rw [rawItems, h]]
    rw [htaxbase]
    cases h2 : (List.lookup "tax_details" m).getD (JVal.jarr []) with
    | jarr l2 => rw [show rawTaxDetails m = l2 by rw [rawTaxDetails, h2]]; try rfl
    | jnull => rw [show rawTaxDetails m = [] by rw [rawTaxDetails, h2]]; try rfl
    | jbool b => rw [show rawTaxDetails m = [] by rw [rawTaxDetails, h2]]; try rfl
    | jint n => rw [show rawTaxDetails m = [] by rw [rawTaxDetails, h2]]; try rfl
    | jfloat q => rw [show rawTaxDetails m = [] by rw [rawTaxDetails, h2]]; try rfl
    | jstr s => rw [show rawTaxDetails m = [] by rw [rawTaxDetails, h2]]; try rfl
    | jobj mm2 => rw [show rawTaxDetails m = [] by rw [rawTaxDetails, h2]]; try rfl

theorem coerceNumField_null (fos : String → Option Rat) (m : List (String × JVal))
    (k : String) (h : List.lookup k m = some JVal.jnull) : coerceNumField fos m k = m := by
  unfold coerceNumField
  rw [show pyDictGet m k JVal.jnull = JVal.jnull by simp [pyDictGet, h]]

theorem coerceNumField_str_fail (fos : String → Option Rat) (m : List (String × JVal))
    (k s : String) (h : List.lookup k m = some (JVal.jstr s)) (hf : fos s = none) :
    coerceNumField fos m k = dictSet m k JVal.jnull := by
  unfold coerceNumField
  rw [show pyDictGet m k JVal.jnull = JVal.jstr s by rw [pyDictGet, h]; rfl]
  simp [pyIsNumber, pyFloatOf, hf]

theorem keys_receiptFields (fos : String → Option Rat) (m : List (String × JVal)) :
    keysOf (receiptFields fos m) = keysOf EXPECTED_SCHEMA := by
  rw [receiptFields_eq, keys_coerceNumField, keys_coerceNumField, keys_coerceNumField,
    keys_dictSet, keys_dictSet]
  exact keys_map_schema EXPECTED_SCHEMA (fun k d => pyDictGet m k d)

theorem lookup_receiptFields_items (fos : String → Option Rat) (m : List (String × JVal)) :
    List.lookup "items" (receiptFields fos m)
      = some (JVal.jarr (coerceItems (rawItems m))) := by
  rw [receiptFields_eq,
    lookup_coerceNumField_ne _ _ _ _ (by decide : ("items" : String) ≠ "total_amount"),
    lookup_coerceNumField_ne _ _ _ _ (by decide : ("items" : String) ≠ "total_tax_amount"),
    lookup_coerceNumField_ne _ _ _ _ (by decide : ("items" : String) ≠ "subtotal"),
    lookup_dictSet_ne _ _ _ _ (by decide : ("items" : String) ≠ "tax_details"),
    lookup_dictSet_self, lookup_receiptBase]
  rfl

theorem lookup_receiptFields_tax (fos : String → Option Rat) (m : List (String × JVal)) :
    List.lookup "tax_details" (receiptFields fos m)
      = some (JVal.jarr (coerceTaxDetails (rawTaxDetails m))) := by
  rw [receiptFields_eq,
    lookup_coerceNumField_ne _ _ _ _ (by decide : ("tax_details" : String) ≠ "total_amount"),
    lookup_coerceNumField_ne _ _ _ _
      (by decide : ("tax_details" : String) ≠ "total_tax_amount"),
    lookup_coerceNumField_ne _ _ _ _ (by decide : ("tax_details" : String) ≠ "subtotal"),
    lookup_dictSet_self,
    lookup_dictSet_ne _ _ _ _ (by decide : ("tax_details" : String) ≠ "items"),
    lookup_receiptBase]
  rfl

theorem lookup_receiptFields_subtotal (fos : String → Option Rat)
    (m : List (String × JVal)) :
    nullOrNumO (List.lookup "subtotal" (receiptFields fos m)) = true := by
  rw [receiptFields_eq,
    lookup_coerceNumField_ne _ _ _ _ (by decide : ("subtotal" : String) ≠ "total_amount"),
    lookup_coerceNumField_ne _ _ _ _
      (by decide : ("subtotal" : String) ≠ "total_tax_amount")]
  apply lookup_coerceNumField_self
  rw [lookup_dictSet_ne _ _ _ _ (by decide : ("subtotal" : String) ≠ "tax_details"),
    lookup_dictSet_ne _ _ _ _ (by decide : ("subtotal" : String) ≠ "items"),
    lookup_receiptBase]
  rfl

theorem lookup_receiptFields_ttx (fos : String → Option Rat) (m : List (String × JVal)) :
    nullOrNumO (List.lookup "total_tax_amount" (receiptFields fos m)) = true := by
  rw [receiptFields_eq,
    lookup_coerceNumField_ne _ _ _ _
      (by decide : ("total_tax_amount" : String) ≠ "total_amount")]
  apply lookup_coerceNumField_self
  rw [lookup_coerceNumField_ne _ _ _ _
      (by decide : ("total_tax_amount" : String) ≠ "subtotal"),
    lookup_dictSet_ne _ _ _ _ (by decide : ("total_tax_amount" : String) ≠ "tax_details"),
    lookup_dictSet_ne _ _ _ _ (by decide : ("total_tax_amount" : String) ≠ "items"),
    lookup_receiptBase]
  rfl

theorem lookup_receiptFields_total (fos : String → Option Rat) (m : List (String × JVal)) :
    nullOrNumO (List.lookup "total_amount" (receiptFields fos m)) = true := by
  rw [receiptFields_eq]
  apply lookup_coerceNumField_self
  rw [lookup_coerceNumField_ne _ _ _ _
      (by decide : ("total_amount" : String) ≠ "total_tax_amount"),
    lookup_coerceNumField_ne _ _ _ _ (by decide : ("total_amount" : String) ≠ "subtotal"),
    lookup_dictSet_ne _ _ _ _ (by decide : ("total_amount" : String) ≠ "tax_details"),
    lookup_dictSet_ne _ _ _ _ (by decide : ("total_amount" : String) ≠ "items"),
    lookup_receiptBase]
  rfl

theorem mem_coerceItems (l : List JVal) (v : JVal) (hv : v ∈ coerceItems l) :
    ∃ im, v = JVal.jobj (coerceItemFields im) := by
  induction l with
  | nil => cases hv
  | cons a rest ih =>
    cases a with
    | jobj im =>
      rw [coerceItems] at hv
      rcases List.mem_cons.mp hv with h | h
      · exact ⟨im, h⟩
      · exact ih h
    | jnull => exact ih hv
    | jbool b => exact ih hv
    | jint n => exact ih hv
    | jfloat q => exact ih hv
    | jstr s => exact ih hv
    | jarr l2 => exact ih hv

theorem mem_coerceTaxDetails (l : List JVal) (v : JVal) (hv : v ∈ coerceTaxDetails l) :
    ∃ dm, v = JVal.jobj
      (EXPECTED_TAX_DETAIL_SCHEMA.map (fun kd => (kd.1, pyDictGet dm kd.1 kd.2))) := by
  induction l with
  | nil => cases hv
  | cons a rest ih =>
    cases a with
    | jobj dm =>
      rw [coerceTaxDetails] at hv
      rcases List.mem_cons.mp hv with h | h
      · exact ⟨dm, h⟩
      · exact ih h
    | jnull => exact ih hv
    | jbool b => exact ih hv
    | jint n => exact ih hv
    | jfloat q => exact ih hv
    | jstr s => exact ih hv
    | jarr l2 => exact ih hv

theorem keys_coerceItemFields (im : List (String × JVal)) :
    keysOf (coerceItemFields im) = keysOf EXPECTED_ITEM_SCHEMA := by
  unfold coerceItemFields
  dsimp only
  split
  · exact keys_map_schema EXPECTED_ITEM_SCHEMA (fun k d => pyDictGet im k d)
  · rw [keys_dictSet]
    exact keys_map_schema EXPECTED_ITEM_SCHEMA (fun k d => pyDictGet im k d)

theorem lookup_coerceItemFields_ne (im : List (String × JVal)) (k : String)
    (h : k ≠ "category") :
    List.lookup k (coerceItemFields im)
      = (List.lookup k EXPECTED_ITEM_SCHEMA).map (fun d => pyDictGet im k d) := by
  unfold coerceItemFields
  dsimp only
  split
  · exact lookup_map_schema EXPECTED_ITEM_SCHEMA (fun k d => pyDictGet im k d) k
  · rw [lookup_dictSet_ne _ _ _ _ h]
    exact lookup_map_schema EXPECTED_ITEM_SCHEMA (fun k d => pyDictGet im k d) k

theorem cat_coerceItemFields (im : List (String × JVal)) :
    ∃ c, List.lookup "category" (coerceItemFields im) = some (JVal.jstr c)
      ∧ c ∈ ALLOWED_CATEGORIES := by
  unfold coerceItemFields
  dsimp only
  have hbase : List.lookup "category"
      (EXPECTED_ITEM_SCHEMA.map (fun kd => (kd.1, pyDictGet im kd.1 kd.2)))
        = some (pyDictGet im "category" (JVal.jstr "Sonstiges / Unkategorisiert")) := by
    rw [lookup_map_schema]
    rfl
  have hget : pyDictGet
      (EXPECTED_ITEM_SCHEMA.map (fun kd => (kd.1, pyDictGet im kd.1 kd.2)))
      "category" JVal.jnull
        = pyDictGet im "category" (JVal.jstr "Sonstiges / Unkategorisiert") := by
    rw [pyDictGet, hbase]
    rfl
  split
  · rename_i hcond
    rw [hget] at hcond
    cases hval : pyDictGet im "category" (JVal.jstr "Sonstiges / Unkategorisiert") with
    | jstr c =>
      refine ⟨c, ?_, ?_⟩
      · rw [hbase, hval]
      · rw [hval] at hcond
        simpa [valueIsAllowedCategory] using hcond
    | jnull => rw [hval] at hcond; simp [valueIsAllowedCategory] at hcond
    | jbool b => rw [hval] at hcond; simp [valueIsAllowedCategory] at hcond
    | jint n => rw [hval] at hcond; simp [valueIsAllowedCategory] at hcond
    | jfloat q => rw [hval] at hcond; simp [valueIsAllowedCategory] at hcond
    | jarr l => rw [hval] at hcond; simp [valueIsAllowedCategory] at hcond
    | jobj mm => rw [hval] at hcond; simp [valueIsAllowedCategory] at hcond
  · refine ⟨"Sonstiges / Unkategorisiert", ?_, by decide⟩
    rw [lookup_dictSet_self, hbase]
    rfl

theorem jsonStartIndex_spec (t : List Char) :
    jsonStartIndex? t = firstIdxWhere (fun c => c == '{' || c == '[') t := by
  induction t with
  | nil => rfl
  | cons a rest ih =>
    by_cases h1 : a = '{'
    · subst h1
      cases hk : pyFind '[' rest with
      | none => simp [jsonStartIndex?, pyFind, firstIdxWhere, hk]
      | some k => simp [jsonStartIndex?, pyFind, firstIdxWhere, hk, Nat.zero_min]
    · by_cases h2 : a = '['
      · subst h2
        cases hb : pyFind '{' rest with
        | none => simp [jsonStartIndex?, pyFind, firstIdxWhere, hb]
        | some b => simp [jsonStartIndex?, pyFind, firstIdxWhere, hb, Nat.min_zero]
      · have hb1 : (a == '{') = false := by simp [h1]
        have hb2 : (a == '[') = false := by simp [h2]
        cases hb : pyFind '{' rest with
        | none =>
          cases hk : pyFind '[' rest with
          | none =>
            have hrest : jsonStartIndex? rest = none := by
              simp [jsonStartIndex?, hb, hk]
            simp [jsonStartIndex?, pyFind, firstIdxWhere, hb, hk, hb1, hb2, ← ih, hrest]
          | some k =>
            have hrest : jsonStartIndex? rest = some k := by
              simp [jsonStartIndex?, hb, hk]
            simp [jsonStartIndex?, pyFind, firstIdxWhere, hb, hk, hb1, hb2, ← ih, hrest]
        | some b =>
          cases hk : pyFind '[' rest with
          | none =>
            have hrest : jsonStartIndex? rest = some b := by
              simp [jsonStartIndex?, hb, hk]
            simp [jsonStartIndex?, pyFind, firstIdxWhere, hb, hk, hb1, hb2, ← ih, hrest]
          | some k =>
            have hrest : jsonStartIndex? rest = some (min b k) := by
              simp [jsonStartIndex?, hb, hk]
            have hmin : min (b + 1) (k + 1) = min b k + 1 := by omega
            simp [jsonStartIndex?, pyFind, firstIdxWhere, hb, hk, hb1, hb2, ← ih, hrest,
              hmin]

theorem lastIdxOf_getLast :
    ∀ (t : List Char) (c : Char), t.getLast? = some c →
      lastIdxOf c t = some (t.length - 1)
  | [], c, h => by simp at h
  | [a], c, h => by
      have ha : a = c := by simpa using h
      subst ha
      simp [lastIdxOf]
  | a :: b :: rest, c, h => by
      have h2 : (b :: rest).getLast? = some c := by
        simpa [List.getLast?_cons_cons] using h
      have ih := lastIdxOf_getLast (b :: rest) c h2
      rw [lastIdxOf, ih]
      simp

theorem decodeStrings_map_jstr (L : List String) :
    decodeStrings (L.map JVal.jstr) = some L := by
  induction L with
  | nil => rfl
  | cons s rest ih => simp [decodeStrings, ih]

theorem decodeStrings_some :
    ∀ (r : List JVal) (L : List String), decodeStrings r = some L → r = L.map JVal.jstr
  | [], L, h => by
      simp [decodeStrings] at h
      subst h
      rfl
  | JVal.jstr s :: rest, L, h => by
      simp only [decodeStrings, Option.map_eq_some'] at h
      obtain ⟨t, ht, rfl⟩ := h
      simp [decodeStrings_some rest t ht]
  | JVal.jnull :: rest, L, h => by simp [decodeStrings] at h
  | JVal.jbool b :: rest, L, h => by simp [decodeStrings] at h
  | JVal.jint n :: rest, L, h => by simp [decodeStrings] at h
  | JVal.jfloat q :: rest, L, h => by simp [decodeStrings] at h
  | JVal.jarr l :: rest, L, h => by simp [decodeStrings] at h
  | JVal.jobj m :: rest, L, h => by simp [decodeStrings] at h

theorem isExpectedHeader_iff (r : List JVal) :
    isExpectedHeader r = true ↔ r = headerRow := by
  unfold isExpectedHeader headerRow
  constructor
  · intro h
    have h2 : decodeStrings r = some EXPECTED_HEADERS := by
      exact eq_of_beq h
    exact decodeStrings_some r EXPECTED_HEADERS h2
  · intro h
    subst h
    rw [decodeStrings_map_jstr]
    simp

theorem nullToEmpty_not_null (u : JVal) : isNullV (nullToEmpty u) = false := by
  cases u <;> rfl

theorem itemRow_length (ts fn : String) (data im : List (String × JVal)) :
    (itemRow ts fn data im).length = EXPECTED_HEADERS.length := by
  simp [itemRow, EXPECTED_HEADERS]

theorem itemRow_no_null (ts fn : String) (data im : List (String × JVal)) (v : JVal)
    (hv : v ∈ itemRow ts fn data im) : isNullV v = false := by
  unfold itemRow at hv
  rcases List.mem_map.mp hv with ⟨u, _, rfl⟩
  exact nullToEmpty_not_null u

theorem extract_json_clean (raw t0 : List Char) (h0 : pyStrip raw = '{' :: t0)
    (h2 : ('{' :: t0).getLast? = some '}') :
    extract_json raw = Except.ok ('{' :: t0) := by
  have hstart : jsonStartIndex? ('{' :: t0) = some 0 := by
    have hfb : pyFind '{' ('{' :: t0) = some 0 := by simp [pyFind]
    cases hk : pyFind '[' ('{' :: t0) with
    | none => simp [jsonStartIndex?, hfb, hk]
    | some k => simp [jsonStartIndex?, hfb, hk, Nat.zero_min]
  have hlast : lastIdxOf '}' ('{' :: t0) = some (('{' :: t0).length - 1) :=
    lastIdxOf_getLast _ _ h2
  have hrfind : pyRfind '}' 0 ('{' :: t0) = some (t0.length) := by
    rw [pyRfind, List.drop_zero, hlast]
    simp
  unfold extract_json
  rw [h0]
  dsimp only
  rw [hstart]
  dsimp only
  rw [show (if ('{' :: t0).getD 0 ' ' == '{' then '}' else ']') = '}' from rfl, hrfind]
  dsimp only
  rw [List.drop_zero, show t0.length + 1 - 0 = ('{' :: t0).length from by simp,
    List.take_length]

/-- The per-image outcome of the batch loop: the pair recorded in
`all_results_structured` for a success, `none` for a failure. -/
def succFilter (loads : List Char → Option JVal) (fos : String → Option Rat)
    (p : String × Except String (List Char)) : Option (String × JVal) :=
  match analyze_receipt_with_gemini loads fos p.2 with
  | some v => if pyTruthy v && isObjVal v then some (p.1, v) else none
  | none => none

theorem processImages_spec (loads : List Char → Option JVal) (fos : String → Option Rat)
    (images : List (String × Except String (List Char))) :
    (processImages loads fos images).succeeded + (processImages loads fos images).failed
        = images.length
      ∧ (processImages loads fos images).results
          = images.filterMap (succFilter loads fos)
      ∧ (processImages loads fos images).failed
          = images.countP (fun p => (succFilter loads fos p).isNone) := by
  induction images with
  | nil => exact ⟨rfl, rfl, rfl⟩
  | cons img rest ih =>
    obtain ⟨fn, resp⟩ := img
    obtain ⟨ih1, ih2, ih3⟩ := ih
    unfold processImages
    dsimp only
    cases hr : analyze_receipt_with_gemini loads fos resp with
    | none =>
      have hsf : succFilter loads fos (fn, resp) = none := by simp [succFilter, hr]
      refine ⟨?_, ?_, ?_⟩
      · simp only [List.length_cons]
        omega
      · simp [List.filterMap_cons, hsf, ih2]
      · simp [List.countP_cons, hsf, ih3]
    | some v =>
      cases hcond : pyTruthy v && isObjVal v with
      | true =>
        have hsf : succFilter loads fos (fn, resp) = some (fn, v) := by
          simp [succFilter, hr, hcond]
        refine ⟨?_, ?_, ?_⟩
        · simp only [hcond, List.length_cons]
          simp
          omega
        · simp only [hcond]
          simp [List.filterMap_cons, hsf, ih2]
        · simp only [hcond]
          simp [List.countP_cons, hsf, ih3]
      | false =>
        have hsf : succFilter loads fos (fn, resp) = none := by
          simp [succFilter, hr, hcond]
        refine ⟨?_, ?_, ?_⟩
        · simp only [hcond, List.length_cons]
          simp
          omega
        · simp only [hcond]
          simp [List.filterMap_cons, hsf, ih2]
        · simp only [hcond]
          simp [List.countP_cons, hsf, ih3]

theorem runBatch_eq (loads : List Char → Option JVal) (fos : String → Option Rat)
    (images : List (String × Except String (List Char))) (s : Sheet) (ts : String) :
    runBatch loads fos images s ts
      = (processImages loads fos images,
         save_to_google_sheet ts (processImages loads fos images).results s) := by
  unfold runBatch
  dsimp only
  cases h : (processImages loads fos images).results with
  | nil => rfl
  | cons r rs => rfl

theorem save_nil (ts : String) (s : Sheet) : save_to_google_sheet ts [] s = (s, 0) := rfl

theorem save_cons (ts : String) (r : String × JVal) (rs : List (String × JVal))
    (s : Sheet) :
    (save_to_google_sheet ts (r :: rs) s).1.rows
        = (ensure_header s).1.rows ++ buildAllRows ts (r :: rs)
      ∧ (save_to_google_sheet ts (r :: rs) s).2 = (buildAllRows ts (r :: rs)).length := by
  unfold save_to_google_sheet
  cases h : buildAllRows ts (r :: rs) with
  | nil => simp [h]
  | cons x xs => simp [h]

/-- C1: for every input map, every line item output by schema coercion has
a category that is an exact member of the Category Taxonomy; when the raw
item's category key is absent, or its value is not an exact member, the
output category is the default "Sonstiges / Unkategorisiert". -/
theorem c1_category_safety (fos : String → Option Rat) (m im : List (String × JVal)) :
    (∀ v ∈ itemsOf (ensure_json_schema fos (JVal.jobj m)),
        ∃ c, fieldOf v "category" = some (JVal.jstr c) ∧ c ∈ ALLOWED_CATEGORIES)
    ∧ (List.lookup "category" im = none →
        List.lookup "category" (coerceItemFields im)
          = some (JVal.jstr "Sonstiges / Unkategorisiert"))
    ∧ (∀ w, List.lookup "category" im = some w → valueIsAllowedCategory w = false →
        List.lookup "category" (coerceItemFields im)
          = some (JVal.jstr "Sonstiges / Unkategorisiert")) := by
  have hbase : List.lookup "category"
      (EXPECTED_ITEM_SCHEMA.map (fun kd => (kd.1, pyDictGet im kd.1 kd.2)))
        = some (pyDictGet im "category" (JVal.jstr "Sonstiges / Unkategorisiert")) := by
    rw [lookup_map_schema]
    rfl
  have hget : pyDictGet
      (EXPECTED_ITEM_SCHEMA.map (fun kd => (kd.1, pyDictGet im kd.1 kd.2)))
      "category" JVal.jnull
        = pyDictGet im "category" (JVal.jstr "Sonstiges / Unkategorisiert") := by
    rw [pyDictGet, hbase]
    rfl
  refine ⟨?_, ?_, ?_⟩
  · intro v hv
    have hitems : itemsOf (ensure_json_schema fos (JVal.jobj m))
        = coerceItems (rawItems m) := by
      show itemsOf (JVal.jobj (receiptFields fos m)) = _
      unfold itemsOf
      dsimp only
      rw [lookup_receiptFields_items]
    rw [hitems] at hv
    obtain ⟨im2, rfl⟩ := mem_coerceItems _ _ hv
    obtain ⟨c, hc, hmem⟩ := cat_coerceItemFields im2
    exact ⟨c, hc, hmem⟩
  · intro habsent
    have hw0 : pyDictGet im "category" (JVal.jstr "Sonstiges / Unkategorisiert")
        = JVal.jstr "Sonstiges / Unkategorisiert" := by
      rw [pyDictGet, habsent]
      rfl
    unfold coerceItemFields
    dsimp only
    rw [hget, hw0, if_pos (by decide)]
    rw [hbase, hw0]
  · intro w hw hbad
    have hw0 : pyDictGet im "category" (JVal.jstr "Sonstiges / Unkategorisiert") = w := by
      rw [pyDictGet, hw]
      rfl
    unfold coerceItemFields
    dsimp only
    rw [hget, hw0, if_neg (by rw [hbad]; exact Bool.false_ne_true)]
    rw [lookup_dictSet_self, hbase]
    rfl

/-- C1 witness: the spec's own example, a raw item whose category is the
non-member string "Not A Real Category", coerces to the default
category. -/
theorem c1_witness :
    List.lookup "category" [("category", JVal.jstr "Not A Real Category")]
        = some (JVal.jstr "Not A Real Category")
    ∧ valueIsAllowedCategory (JVal.jstr "Not A Real Category") = false
    ∧ List.lookup "category"
        (coerceItemFields [("category", JVal.jstr "Not A Real Category")])
          = some (JVal.jstr "Sonstiges / Unkategorisiert") :=
  ⟨rfl, by decide,
    (c1_category_safety (fun _ => none) []
        [("category", JVal.jstr "Not A Real Category")]).2.2
      (JVal.jstr "Not A Real Category") rfl (by decide)⟩

/-- C2: for every map input, coercion output has exactly the canonical
Receipt key set, every element of its items sequence has exactly the
canonical LineItem key set, every element of its tax_details sequence has
exactly the canonical TaxBreakdown key set, and any canonical key missing
from the input comes out bound to its schema default (so unknown keys are
dropped and missing keys are filled). -/
theorem c2_schema_completeness (fos : String → Option Rat) (m : List (String × JVal)) :
    keysOf (receiptFields fos m) = keysOf EXPECTED_SCHEMA
    ∧ (∀ v ∈ itemsOf (ensure_json_schema fos (JVal.jobj m)),
        ∃ im, v = JVal.jobj im ∧ keysOf im = keysOf EXPECTED_ITEM_SCHEMA)
    ∧ (∀ v ∈ taxDetailsOf (ensure_json_schema fos (JVal.jobj m)),
        ∃ dm, v = JVal.jobj dm ∧ keysOf dm = keysOf EXPECTED_TAX_DETAIL_SCHEMA)
    ∧ (∀ k, List.lookup k m = none →
        List.lookup k (receiptFields fos m) = List.lookup k EXPECTED_SCHEMA) := by
  refine ⟨keys_receiptFields fos m, ?_, ?_, ?_⟩
  · intro v hv
    have hitems : itemsOf (ensure_json_schema fos (JVal.jobj m))
        = coerceItems (rawItems m) := by
      show itemsOf (JVal.jobj (receiptFields fos m)) = _
      unfold itemsOf
      dsimp only
      rw [lookup_receiptFields_items]
    rw [hitems] at hv
    obtain ⟨im2, rfl⟩ := mem_coerceItems _ _ hv
    exact ⟨coerceItemFields im2, rfl, keys_coerceItemFields im2⟩
  · intro v hv
    have htax : taxDetailsOf (ensure_json_schema fos (JVal.jobj m))
        = coerceTaxDetails (rawTaxDetails m) := by
      show taxDetailsOf (JVal.jobj (receiptFields fos m)) = _
      unfold taxDetailsOf
      dsimp only
      rw [lookup_receiptFields_tax]
    rw [htax] at hv
    obtain ⟨dm, rfl⟩ := mem_coerceTaxDetails _ _ hv
    refine ⟨_, rfl, ?_⟩
    exact keys_map_schema EXPECTED_TAX_DETAIL_SCHEMA (fun k d => pyDictGet dm k d)
  · intro k hk
    by_cases hk1 : k = "items"
    · subst hk1
      rw [lookup_receiptFields_items,
        show rawItems m = [] by rw [rawItems, hk]; rfl]
      rfl
    by_cases hk2 : k = "tax_details"
    · subst hk2
      rw [lookup_receiptFields_tax,
        show rawTaxDetails m = [] by rw [rawTaxDetails, hk]; rfl]
      rfl
    by_cases hk3 : k = "subtotal"
    · subst hk3
      rw [receiptFields_eq,
        lookup_coerceNumField_ne _ _ _ _
          (by decide : ("subtotal" : String) ≠ "total_amount"),
        lookup_coerceNumField_ne _ _ _ _
          (by decide : ("subtotal" : String) ≠ "total_tax_amount")]
      have hx : List.lookup "subtotal"
          (dictSet
            (dictSet (receiptBase m) "items" (JVal.jarr (coerceItems (rawItems m))))
            "tax_details" (JVal.jarr (coerceTaxDetails (rawTaxDetails m))))
            = some JVal.jnull := by
        rw [lookup_dictSet_ne _ _ _ _ (by decide : ("subtotal" : String) ≠ "tax_details"),
          lookup_dictSet_ne _ _ _ _ (by decide : ("subtotal" : String) ≠ "items"),
          lookup_receiptBase]
        simp [pyDictGet, hk]
        rfl
      rw [coerceNumField_null _ _ _ hx, hx]
      rfl
    by_cases hk4 : k = "total_tax_amount"
    · subst hk4
      rw [receiptFields_eq,
        lookup_coerceNumField_ne _ _ _ _
          (by decide : ("total_tax_amount" : String) ≠ "total_amount")]
      have hx : List.lookup "total_tax_amount"
          (coerceNumField fos
            (dictSet
              (dictSet (receiptBase m) "items" (JVal.jarr (coerceItems (rawItems m))))
              "tax_details" (JVal.jarr (coerceTaxDetails (rawTaxDetails m))))
            "subtotal")
            = some JVal.jnull := by
        rw [lookup_coerceNumField_ne _ _ _ _
            (by decide : ("total_tax_amount" : String) ≠ "subtotal"),
          lookup_dictSet_ne _ _ _ _
            (by decide : ("total_tax_amount" : String) ≠ "tax_details"),
          lookup_dictSet_ne _ _ _ _
            (by decide : ("total_tax_amount" : String) ≠ "items"),
          lookup_receiptBase]
        simp [pyDictGet, hk]
        rfl
      rw [coerceNumField_null _ _ _ hx, hx]
      rfl
    by_cases hk5 : k = "total_amount"
    · subst hk5
      rw [receiptFields_eq]
      have hx : List.lookup "total_amount"
          (coerceNumField fos (coerceNumField fos
            (dictSet
              (dictSet (receiptBase m) "items" (JVal.jarr (coerceItems (rawItems m))))
              "tax_details" (JVal.jarr (coerceTaxDetails (rawTaxDetails m))))
            "subtotal") "total_tax_amount")
            = some JVal.jnull := by
        rw [lookup_coerceNumField_ne _ _ _ _
            (by decide : ("total_amount" : String) ≠ "total_tax_amount"),
          lookup_coerceNumField_ne _ _ _ _
            (by decide : ("total_amount" : String) ≠ "subtotal"),
          lookup_dictSet_ne _ _ _ _
            (by decide : ("total_amount" : String) ≠ "tax_details"),
          lookup_dictSet_ne _ _ _ _
            (by decide : ("total_amount" : String) ≠ "items"),
          lookup_receiptBase]
        simp [pyDictGet, hk]
        rfl
      rw [coerceNumField_null _ _ _ hx, hx]
      rfl
    · rw [receiptFields_eq,
        lookup_coerceNumField_ne _ _ _ _ hk5,
        lookup_coerceNumField_ne _ _ _ _ hk4,
        lookup_coerceNumField_ne _ _ _ _ hk3,
        lookup_dictSet_ne _ _ _ _ hk2,
        lookup_dictSet_ne _ _ _ _ hk1,
        lookup_receiptBase]
      cases hs : List.lookup k EXPECTED_SCHEMA with
      | none => rfl
      | some d =>
        simp [pyDictGet, hk]

/-- C2 witness: a map carrying only an unknown key has it dropped and the
missing canonical key `merchant_name` filled with its default. -/
theorem c2_witness :
    List.lookup "merchant_name" [("bogus", JVal.jint 5)] = none
    ∧ List.lookup "merchant_name" (receiptFields (fun _ => none) [("bogus", JVal.jint 5)])
        = List.lookup "merchant_name" EXPECTED_SCHEMA
    ∧ keysOf (receiptFields (fun _ => none) [("bogus", JVal.jint 5)])
        = keysOf EXPECTED_SCHEMA :=
  ⟨rfl,
    (c2_schema_completeness (fun _ => none) [("bogus", JVal.jint 5)]).2.2.2
      "merchant_name" rfl,
    (c2_schema_completeness (fun _ => none) [("bogus", JVal.jint 5)]).1⟩

/-- C3: the code's JSON recovery (first opening brace and first opening
bracket found separately, minimum taken when both occur, matching closer,
last occurrence of the closer at or after the start, inclusive slice,
with the two distinct error outcomes) coincides with the spec's one-scan
description for every raw response text; and a parse failure of the
sliced substring is the per-image failure value `none`, not an
exception. -/
theorem c3_recovery_refinement (loads : List Char → Option JVal)
    (fos : String → Option Rat) (raw js : List Char) :
    extract_json raw = extract_json_spec raw
    ∧ (extract_json raw = Except.ok js → loads js = none →
        analyze_receipt_with_gemini loads fos (Except.ok raw) = none) := by
  constructor
  · unfold extract_json extract_json_spec
    dsimp only
    rw [jsonStartIndex_spec]
  · intro hok hparse
    unfold analyze_receipt_with_gemini
    dsimp only
    rw [hok]
    dsimp only
    rw [hparse]

/-- C3 witness: on a concrete response the refinement holds and a parse
failure of the recovered slice yields the per-image failure value. -/
theorem c3_witness :
    extract_json ['{', 'a', '}'] = Except.ok ['{', 'a', '}']
    ∧ extract_json ['{', 'a', '}'] = extract_json_spec ['{', 'a', '}']
    ∧ analyze_receipt_with_gemini (fun _ => none) (fun _ => none)
        (Except.ok ['{', 'a', '}']) = none :=
  ⟨rfl,
    (c3_recovery_refinement (fun _ => none) (fun _ => none)
      ['{', 'a', '}'] ['{', 'a', '}']).1,
    (c3_recovery_refinement (fun _ => none) (fun _ => none)
      ['{', 'a', '}'] ['{', 'a', '}']).2 rfl rfl⟩

/-- C4: one persisted row per line item of a coerced receipt (so an empty
items sequence yields zero rows whatever else is populated), each row
exactly as long as the 19-column header and in its order by construction,
with every null cell replaced by the empty string. -/
theorem c4_row_projection (fos : String → Option Rat) (ts fn : String)
    (m : List (String × JVal)) :
    (rowsForResult ts (fn, ensure_json_schema fos (JVal.jobj m))).length
        = (itemsOf (ensure_json_schema fos (JVal.jobj m))).length
    ∧ ∀ row ∈ rowsForResult ts (fn, ensure_json_schema fos (JVal.jobj m)),
        row.length = EXPECTED_HEADERS.length ∧ ∀ v ∈ row, isNullV v = false := by
  have hitems : itemsOf (ensure_json_schema fos (JVal.jobj m))
      = coerceItems (rawItems m) := by
    show itemsOf (JVal.jobj (receiptFields fos m)) = _
    unfold itemsOf
    dsimp only
    rw [lookup_receiptFields_items]
  have hget : pyDictGet (receiptFields fos m) "items" (JVal.jarr [])
      = JVal.jarr (coerceItems (rawItems m)) := by
    rw [pyDictGet, lookup_receiptFields_items]
    rfl
  have hrows : rowsForResult ts (fn, ensure_json_schema fos (JVal.jobj m))
      = (coerceItems (rawItems m)).map (fun it =>
          match it with
          | JVal.jobj im => itemRow ts fn (receiptFields fos m) im
          | _ => []) := by
    show rowsForResult ts (fn, JVal.jobj (receiptFields fos m)) = _
    unfold rowsForResult
    dsimp only
    rw [hget]
  constructor
  · rw [hrows, hitems, List.length_map]
  · intro row hrow
    rw [hrows] at hrow
    obtain ⟨it, hit, rfl⟩ := List.mem_map.mp hrow
    obtain ⟨im2, rfl⟩ := mem_coerceItems _ _ hit
    exact ⟨itemRow_length ts fn _ _, fun v hv => itemRow_no_null ts fn _ _ v hv⟩

/-- C4 witness: a coerced receipt with one raw item projects to exactly
one 19-value row. -/
theorem c4_witness :
    (rowsForResult "T"
        ("f", ensure_json_schema (fun _ => none)
          (JVal.jobj [("items", JVal.jarr [JVal.jobj []])]))).length
      = (itemsOf (ensure_json_schema (fun _ => none)
          (JVal.jobj [("items", JVal.jarr [JVal.jobj []])]))).length
    ∧ (itemsOf (ensure_json_schema (fun _ => none)
        (JVal.jobj [("items", JVal.jarr [JVal.jobj []])]))).length = 1 :=
  ⟨(c4_row_projection (fun _ => none) "T" "f" [("items", JVal.jarr [JVal.jobj []])]).1,
    rfl⟩

/-- C5: every image of a batch is attempted in input order; a collaborator
exception is converted inside the extraction function to the per-image
failure value `none`, so no failure aborts the batch; the failure counter
counts exactly the failed images, the success list is exactly the
successful extractions in input order, and projection plus the single
append call run over exactly that success list. -/
theorem c5_batch_isolation (loads : List Char → Option JVal) (fos : String → Option Rat)
    (images : List (String × Except String (List Char))) (s : Sheet) (ts : String) :
    (∀ e, analyze_receipt_with_gemini loads fos (Except.error e) = none)
    ∧ (processImages loads fos images).succeeded + (processImages loads fos images).failed
        = images.length
    ∧ (processImages loads fos images).results
        = images.filterMap (succFilter loads fos)
    ∧ (processImages loads fos images).failed
        = images.countP (fun p => (succFilter loads fos p).isNone)
    ∧ runBatch loads fos images s ts
        = (processImages loads fos images,
           save_to_google_sheet ts (processImages loads fos images).results s)
    ∧ save_to_google_sheet ts [] s = (s, 0)
    ∧ (∀ r rs, (save_to_google_sheet ts (r :: rs) s).1.rows
          = (ensure_header s).1.rows ++ buildAllRows ts (r :: rs)
        ∧ (save_to_google_sheet ts (r :: rs) s).2
          = (buildAllRows ts (r :: rs)).length) := by
  obtain ⟨h1, h2, h3⟩ := processImages_spec loads fos images
  exact ⟨fun e => rfl, h1, h2, h3, runBatch_eq loads fos images s ts,
    save_nil ts s, fun r rs => save_cons ts r rs s⟩

/-- C5 witness: a two-image batch where the second image's extraction
raised has one success, one failure, and the failed image does not stop
the first from being recorded. -/
theorem c5_witness :
    (processImages (fun _ => some (JVal.jobj [])) (fun _ => none)
        [("a", Except.ok ['{', '}']), ("b", Except.error "decode")]).succeeded
      + (processImages (fun _ => some (JVal.jobj [])) (fun _ => none)
        [("a", Except.ok ['{', '}']), ("b", Except.error "decode")]).failed = 2
    ∧ (processImages (fun _ => some (JVal.jobj [])) (fun _ => none)
        [("a", Except.ok ['{', '}']), ("b", Except.error "decode")]).failed = 1
    ∧ analyze_receipt_with_gemini (fun _ => some (JVal.jobj [])) (fun _ => none)
        (Except.error "decode") = none :=
  ⟨(c5_batch_isolation (fun _ => some (JVal.jobj [])) (fun _ => none)
      [("a", Except.ok ['{', '}']), ("b", Except.error "decode")] ⟨[]⟩ "T").2.1,
    by rfl,
    (c5_batch_isolation (fun _ => some (JVal.jobj [])) (fun _ => none)
      [("a", Except.ok ['{', '}']), ("b", Except.error "decode")] ⟨[]⟩ "T").1 "decode"⟩

/-- C6 counterexample: coercion applies no numeric conversion to item
fields, so a raw item whose quantity is the string "zwei" keeps that
string as its quantity after coercion, refuting the claim that every
coerced item's quantity is a number. -/
theorem c6_counterexample :
    (itemsOf (ensure_json_schema (fun _ => none)
        (JVal.jobj [("items",
          JVal.jarr [JVal.jobj [("quantity", JVal.jstr "zwei")]])]))).map
      (fun it => fieldOf it "quantity") = [some (JVal.jstr "zwei")]
    ∧ pyIsNumber (JVal.jstr "zwei") = false :=
  ⟨rfl, rfl⟩

/-- C6 amended: after coercion each item field is the raw item's value
when the key is present and the schema default otherwise (so quantity is
a number exactly when the raw value is absent or already a number, and
mistyped item values pass through unchanged), while the receipt-level
subtotal, total_tax_amount and total_amount are always numeric or null
after the explicit conversion step (Python booleans counting as numeric
since bool is an int subtype). -/
theorem c6_item_typing (fos : String → Option Rat) (m im : List (String × JVal)) :
    nullOrNumO (List.lookup "subtotal" (receiptFields fos m)) = true
    ∧ nullOrNumO (List.lookup "total_tax_amount" (receiptFields fos m)) = true
    ∧ nullOrNumO (List.lookup "total_amount" (receiptFields fos m)) = true
    ∧ List.lookup "quantity" (coerceItemFields im)
        = some ((List.lookup "quantity" im).getD (JVal.jint 1))
    ∧ List.lookup "unit_price" (coerceItemFields im)
        = some ((List.lookup "unit_price" im).getD JVal.jnull)
    ∧ List.lookup "total_price" (coerceItemFields im)
        = some ((List.lookup "total_price" im).getD JVal.jnull)
    ∧ List.lookup "vat_rate" (coerceItemFields im)
        = some ((List.lookup "vat_rate" im).getD JVal.jnull) := by
  refine ⟨lookup_receiptFields_subtotal fos m, lookup_receiptFields_ttx fos m,
    lookup_receiptFields_total fos m, ?_, ?_, ?_, ?_⟩
  · rw [lookup_coerceItemFields_ne im "quantity" (by decide)]
    rfl
  · rw [lookup_coerceItemFields_ne im "unit_price" (by decide)]
    rfl
  · rw [lookup_coerceItemFields_ne im "total_price" (by decide)]
    rfl
  · rw [lookup_coerceItemFields_ne im "vat_rate" (by decide)]
    rfl

/-- C6 witness for the amended statement: a map whose subtotal is a
non-convertible string comes out null, and an item with a numeric raw
quantity keeps it. -/
theorem c6_witness :
    nullOrNumO (List.lookup "subtotal"
        (receiptFields (fun _ => none) [("subtotal", JVal.jstr "abc")])) = true
    ∧ List.lookup "quantity" (coerceItemFields [("quantity", JVal.jint 2)])
        = some ((List.lookup "quantity" [("quantity", JVal.jint 2)]).getD (JVal.jint 1)) :=
  ⟨(c6_item_typing (fun _ => none) [("subtotal", JVal.jstr "abc")]
      [("quantity", JVal.jint 2)]).1,
    (c6_item_typing (fun _ => none) [("subtotal", JVal.jstr "abc")]
      [("quantity", JVal.jint 2)]).2.2.2.1⟩

/-- C7: the header check writes nothing when row 1 already equals the
fixed 19-column header, a second consecutive call never writes, and a
header insertion at position 1 happens exactly when row 1 differs from
the header (the empty store reads as the empty row, which differs). -/
theorem c7_header_idempotent (s : Sheet) :
    (ensure_header ((ensure_header s).1)).2 = 0
    ∧ ((ensure_header s).2 = 0 ↔ s.rows.headD [] = headerRow)
    ∧ (ensure_header s = (s, 0) ∨
        ((ensure_header s).1.rows = headerRow :: s.rows ∧ (ensure_header s).2 = 1
          ∧ s.rows.headD [] ≠ headerRow)) := by
  cases hh : isExpectedHeader (s.rows.headD []) with
  | true =>
    have heq : s.rows.headD [] = headerRow := (isExpectedHeader_iff _).mp hh
    have h1 : ensure_header s = (s, 0) := by
      unfold ensure_header
      rw [hh]
      rfl
    refine ⟨?_, ?_, Or.inl h1⟩
    · rw [h1]
      unfold ensure_header
      rw [hh]
      rfl
    · rw [h1]
      exact ⟨fun _ => heq, fun _ => rfl⟩
  | false =>
    have hne : s.rows.headD [] ≠ headerRow := by
      intro heq
      rw [(isExpectedHeader_iff _).mpr heq] at hh
      exact Bool.noConfusion hh
    have h1 : ensure_header s = ({ rows := headerRow :: s.rows }, 1) := by
      unfold ensure_header
      rw [hh]
      rfl
    refine ⟨?_, ?_, Or.inr ⟨by rw [h1], by rw [h1], hne⟩⟩
    · rw [h1]
      unfold ensure_header
      rw [show (({ rows := headerRow :: s.rows } : Sheet), 1).1.rows.headD []
          = headerRow from rfl]
      rw [(isExpectedHeader_iff _).mpr rfl]
      rfl
    · rw [h1]
      exact ⟨fun h => absurd h one_ne_zero, fun h => absurd h hne⟩

/-- C7 witness: on a store whose row 1 is already the header, the check
performs zero writes. -/
theorem c7_witness :
    (ensure_header ⟨[headerRow]⟩).2 = 0
    ∧ (ensure_header (ensure_header ⟨[headerRow]⟩).1).2 = 0 :=
  ⟨(c7_header_idempotent ⟨[headerRow]⟩).2.1.mpr rfl,
    (c7_header_idempotent ⟨[headerRow]⟩).1⟩

/-- C8: JSON recovery is the identity on clean input: when the trimmed
raw text is a bare JSON object (it begins with the opening brace and ends
with the closing brace, as every valid serialized object does), the
recovered substring is exactly the trimmed text. -/
theorem c8_recovery_identity (raw : List Char)
    (h1 : (pyStrip raw).head? = some '{') (h2 : (pyStrip raw).getLast? = some '}') :
    extract_json raw = Except.ok (pyStrip raw) := by
  cases ht : pyStrip raw with
  | nil =>
    rw [ht] at h1
    exact Option.noConfusion h1
  | cons a t0 =>
    rw [ht] at h1 h2
    have ha : a = '{' := by
      have := List.head?_cons (a := a) (l := t0)
      rw [this] at h1
      exact Option.some.inj h1
    subst ha
    exact extract_json_clean raw t0 ht h2

/-- C8 witness: a bare object with surrounding whitespace is recovered
unchanged after trimming. -/
theorem c8_witness :
    pyStrip [' ', '{', 'a', '}', ' '] = ['{', 'a', '}']
    ∧ extract_json [' ', '{', 'a', '}', ' ']
        = Except.ok (pyStrip [' ', '{', 'a', '}', ' ']) :=
  ⟨rfl, c8_recovery_identity [' ', '{', 'a', '}', ' '] rfl rfl⟩

/-- C9 counterexample: the Scanner's primary secret-store path accepts a
service-account blob that parses as a map without `client_email`, so the
claim that both lookup paths reject such a blob fails on the code. -/
theorem c9_counterexample :
    load_credentials (fun _ => some (JVal.jobj [("foo", JVal.jstr "bar")]))
        ⟨some "key", some "creds", none, none⟩
      = Except.ok ("key", JVal.jobj [("foo", JVal.jstr "bar")])
    ∧ isValidCredsBlob (JVal.jobj [("foo", JVal.jstr "bar")]) = false :=
  ⟨rfl, rfl⟩

/-- C9 amended: the Scanner's secret-store path accepts any successfully
parsed JSON value with no structural validation; the `client_email`
map-membership check is enforced in the Scanner's environment fallback
path and in both lookup paths of the Dashboard's authenticate_gspread;
and absence of a credentials string from both sources is fatal in both
pages. -/
theorem c9_credential_validation (loads : String → Option JVal) (env : CredEnv) :
    (∀ api0 v, credsFallback loads env api0 = Except.ok v → isValidCredsBlob v.2 = true)
    ∧ (∀ v, authenticate_gspread loads env = some v → isValidCredsBlob v = true)
    ∧ (∀ api creds info, env.secretsApiKey = some api →
        env.secretsSheetsCreds = some creds → loads creds = some info →
        load_credentials loads env = Except.ok (api, info))
    ∧ (env.secretsSheetsCreds = none → env.envSheetsCreds = none →
        credsAccepted (load_credentials loads env) = false
          ∧ (authenticate_gspread loads env).isSome = false) := by
  refine ⟨?_, ?_, ?_, ?_⟩
  · intro api0 v h
    unfold credsFallback at h
    dsimp only at h
    repeat' split at h
    all_goals first
      | exact Except.noConfusion h
      | (rename_i hvalid
         obtain rfl := (Except.ok.inj h)
         exact hvalid)
  · intro v h
    unfold authenticate_gspread at h
    repeat' split at h
    all_goals first
      | exact Option.noConfusion h
      | (rename_i hvalid
         obtain rfl := (Option.some.inj h)
         exact hvalid)
  · intro api creds info h1 h2 h3
    unfold load_credentials
    rw [h1]
    dsimp only
    rw [h2]
    dsimp only
    rw [h3]
  · intro h1 h2
    constructor
    · unfold load_credentials
      cases ha : env.secretsApiKey with
      | none =>
        unfold credsFallback
        dsimp only
        rw [h2]
        repeat' split
        all_goals simp_all [credsAccepted]
      | some api =>
        rw [h1]
        dsimp only
        unfold credsFallback
        dsimp only
        rw [h2]
        repeat' split
        all_goals simp_all [credsAccepted]
    · unfold authenticate_gspread
      rw [h1, h2]
      rfl

/-- C9 witness for the amended statement: the fallback path accepts a
valid blob, the Scanner's secret path accepts without validation, and a
fully absent credentials string is fatal in both pages. -/
theorem c9_witness :
    credsFallback (fun _ => some (JVal.jobj [("client_email", JVal.jstr "e")]))
        ⟨none, none, some "k", some "c"⟩ none
      = Except.ok ("k", JVal.jobj [("client_email", JVal.jstr "e")])
    ∧ isValidCredsBlob
        (("k", JVal.jobj [("client_email", JVal.jstr "e")]) :
          String × JVal).2 = true
    ∧ credsAccepted (load_credentials (fun _ => none) ⟨none, none, none, none⟩) = false
    ∧ (authenticate_gspread (fun _ => none) ⟨none, none, none, none⟩).isSome = false :=
  ⟨rfl,
    (c9_credential_validation (fun _ => some (JVal.jobj [("client_email", JVal.jstr "e")]))
        ⟨none, none, some "k", some "c"⟩).1 none _ rfl,
    ((c9_credential_validation (fun _ => none) ⟨none, none, none, none⟩).2.2.2
      rfl rfl).1,
    ((c9_credential_validation (fun _ => none) ⟨none, none, none, none⟩).2.2.2
      rfl rfl).2⟩

/-- C10: schema coercion is total over the whole JSON-like union by
construction in this embedding; a non-map input is returned unchanged,
and a receipt-level numeric conversion that fails yields null rather than
an error. -/
theorem c10_coercion_total (fos : String → Option Rat) (v : JVal)
    (m : List (String × JVal)) (s : String) :
    (isObjVal v = false → ensure_json_schema fos v = v)
    ∧ (List.lookup "subtotal" m = some (JVal.jstr s) → fos s = none →
        List.lookup "subtotal" (receiptFields fos m) = some JVal.jnull) := by
  constructor
  · intro hv
    cases v with
    | jobj mm => exact absurd hv (by simp [isObjVal])
    | jnull => rfl
    | jbool b => rfl
    | jint n => rfl
    | jfloat q => rfl
    | jstr s2 => rfl
    | jarr l => rfl
  · intro hsub hfail
    rw [receiptFields_eq,
      lookup_coerceNumField_ne _ _ _ _
        (by decide : ("subtotal" : String) ≠ "total_amount"),
      lookup_coerceNumField_ne _ _ _ _
        (by decide : ("subtotal" : String) ≠ "total_tax_amount")]
    have hx : List.lookup "subtotal"
        (dictSet
          (dictSet (receiptBase m) "items" (JVal.jarr (coerceItems (rawItems m))))
          "tax_details" (JVal.jarr (coerceTaxDetails (rawTaxDetails m))))
          = some (JVal.jstr s) := by
      rw [lookup_dictSet_ne _ _ _ _ (by decide : ("subtotal" : String) ≠ "tax_details"),
        lookup_dictSet_ne _ _ _ _ (by decide : ("subtotal" : String) ≠ "items"),
        lookup_receiptBase,
        show List.lookup "subtotal" EXPECTED_SCHEMA = some JVal.jnull from rfl]
      simp [pyDictGet, hsub]
    rw [coerceNumField_str_fail fos _ _ s hx hfail, lookup_dictSet_self, hx]
    rfl

/-- C10 witness: a string input passes through coercion unchanged, and a
subtotal string the conversion rejects becomes null. -/
theorem c10_witness :
    isObjVal (JVal.jstr "x") = false
    ∧ ensure_json_schema (fun _ => none) (JVal.jstr "x") = JVal.jstr "x"
    ∧ List.lookup "subtotal" [("subtotal", JVal.jstr "abc")]
        = some (JVal.jstr "abc")
    ∧ List.lookup "subtotal"
        (receiptFields (fun _ => none) [("subtotal", JVal.jstr "abc")])
          = some JVal.jnull :=
  ⟨rfl,
    (c10_coercion_total (fun _ => none) (JVal.jstr "x")
      [("subtotal", JVal.jstr "abc")] "abc").1 rfl,
    rfl,
    (c10_coercion_total (fun _ => none) (JVal.jstr "x")
      [("subtotal", JVal.jstr "abc")] "abc").2 rfl rfl⟩

end EverythingApp
